import Mathlib

/-!
Verification development for the shake-alert-connect repository.

The definitions below are a shallow embedding of the core logic:
* `src/src/utils/emergencyContacts.ts` — contact storage and primary-contact
  resolution (`getPrimaryContact`);
* `src/src/components/EmergencyCallButton.tsx` — the emergency trigger state
  machine (shake handling, countdown, dispatch, cancel, cooldown);
* `src/src/utils/shakeDetection.ts` — the `ShakeDetector` motion classifier;
* `src/unnamed/part_005` — an elaborated `ShakeDetector` variant with a
  consecutive-shake counter and a single-axis test.

Conventions: JS numbers carrying sensor values and thresholds are modelled as
rationals (`ℚ`); millisecond timestamps from `Date.now()` as naturals.  A
pending `setTimeout` handle is modelled by the absolute time at which its
callback fires (the timer is considered pending strictly before that time).
-/

set_option linter.unusedVariables false

namespace ShakeAlert

/-! ## Emergency contacts (`src/src/utils/emergencyContacts.ts`) -/

/-- `EmergencyContact` record from `emergencyContacts.ts`. -/
structure EmergencyContact where
  id : String
  name : String
  phoneNumber : String
  isPrimary : Bool
deriving DecidableEq, Repr

/-- `getPrimaryContact` from `emergencyContacts.ts`:
`contacts.find(c => c.isPrimary) || (contacts.length > 0 ? contacts[0] : null)`. -/
def getPrimaryContact (contacts : List EmergencyContact) : Option EmergencyContact :=
  match contacts.find? (fun c => c.isPrimary) with
  | some c => some c
  | none => match contacts with
    | [] => none
    | c :: _ => some c

/-! ## Phone-number normalization (`EmergencyCallButton.tsx`, line 172)

`contact.phoneNumber.replace(/[\s()-]/g, '')` — strip whitespace
(space, tab, CR, LF modelled for the `\s` class), parentheses and hyphens. -/

/-- Characters removed by the regex class `[\s()-]`. -/
def isStrippedChar (c : Char) : Bool :=
  c = ' ' || c = '(' || c = ')' || c = '-' || c = '\t' || c = '\n' || c = '\r'

/-- `phoneNumber.replace(/[\s()-]/g, '')`. -/
def normalizePhone (s : String) : String :=
  ⟨s.data.filter (fun c => !isStrippedChar c)⟩

/-! ## Emergency trigger state machine (`src/src/components/EmergencyCallButton.tsx`)

React state of the component:
* `isActivated` / `countdown` — the countdown sequence (`useState`);
* `callInProgress` — set during dispatch and during the post-cancel window;
* `callTimeout` — whether `callTimeoutRef.current` holds a pending 15 s
  cooldown timer (set by `makeEmergencyCall`, cleared by its firing or by
  `cancelEmergencyCall`);
* `cancelTimer` — whether the anonymous 3 s timer scheduled by
  `cancelEmergencyCall` is pending. -/

structure CState where
  isActivated : Bool
  countdown : Nat
  callInProgress : Bool
  callTimeout : Bool
  cancelTimer : Bool
deriving DecidableEq, Repr

/-- Initial component state: nothing activated, no call, no timers. -/
def initState : CState :=
  { isActivated := false, countdown := 0, callInProgress := false,
    callTimeout := false, cancelTimer := false }

/-- Observable side effects of the component relevant to the spec:
toast/speech notifications and the call dispatch (`tel:` navigation). -/
inductive Out where
  | activated (name : String)
  | countdownTick (k : Nat)
  | noContactError
  | callInitiated (name : String)
  | placeCall (number : String)
  | callCanceled
deriving DecidableEq, Repr

/-- `handleShakeDetected` (lines 120–149).  The contact argument is the value
`getPrimaryContact()` returns at this moment. -/
def handleShakeDetected (c : Option EmergencyContact) (s : CState) : CState × List Out :=
  if s.isActivated || s.callInProgress then (s, [])
  else match c with
    | none => (s, [.noContactError])
    | some ct => ({ s with isActivated := true, countdown := 5 }, [.activated ct.name])

/-- `makeEmergencyCall` (lines 151–227).  The multi-strategy `tel:` dispatch
(link click + iframe) is the Call Dispatcher; it is abstracted to a single
`placeCall` output carrying the normalized number.  On success the 15 s
cooldown timer is stored in `callTimeoutRef` (`callTimeout := true`). -/
def makeEmergencyCall (c : Option EmergencyContact) (s : CState) : CState × List Out :=
  if s.callInProgress || s.callTimeout then (s, [])
  else match c with
    | none => ({ s with isActivated := false }, [.noContactError])
    | some ct =>
        ({ s with callInProgress := true, callTimeout := true },
         [.callInitiated ct.name, .placeCall (normalizePhone ct.phoneNumber)])

/-- `cancelEmergencyCall` (lines 229–248): clear the cooldown timer,
deactivate, zero the countdown, and impose a 3 s `callInProgress` window via
an anonymous timer. -/
def cancelEmergencyCall (_s : CState) : CState × List Out :=
  ({ isActivated := false, countdown := 0, callInProgress := true,
     callTimeout := false, cancelTimer := true }, [.callCanceled])

/-- Events that drive the component.  Timer events are guarded by the
pending-timer flags so that a fired/cleared timer is a no-op, matching the
`clearTimeout` handshake in the source. -/
inductive Ev where
  /-- a shake event delivered by the `ShakeDetector` (→ `handleShakeDetected`) -/
  | shake (c : Option EmergencyContact)
  /-- the UI button (`simulateShake`, lines 250–257), which is additionally
  guarded by `callTimeoutRef.current` -/
  | manual (c : Option EmergencyContact)
  /-- the 1 s countdown timer of the effect at lines 86–104 -/
  | tick
  /-- the same effect's `countdown === 0` branch invoking `makeEmergencyCall` -/
  | zeroEffect (c : Option EmergencyContact)
  /-- the cancel button (`cancelEmergencyCall`) -/
  | cancel
  /-- the 15 s cooldown timer scheduled in `makeEmergencyCall` firing -/
  | callCooldownFire
  /-- the 3 s timer scheduled in `cancelEmergencyCall` firing -/
  | cancelCooldownFire
deriving DecidableEq, Repr

/-- One event step of the component. -/
def stepE (e : Ev) (s : CState) : CState × List Out :=
  match e with
  | .shake c => handleShakeDetected c s
  | .manual c =>
      if s.isActivated || s.callInProgress || s.callTimeout then (s, [])
      else handleShakeDetected c s
  | .tick =>
      if s.isActivated = true ∧ 0 < s.countdown then
        ({ s with countdown := s.countdown - 1 }, [.countdownTick (s.countdown - 1)])
      else (s, [])
  | .zeroEffect c =>
      if s.isActivated = true ∧ s.countdown = 0 ∧ s.callInProgress = false then
        makeEmergencyCall c s
      else (s, [])
  | .cancel => cancelEmergencyCall s

  | .callCooldownFire =>
      if s.callTimeout then
        ({ s with isActivated := false, callInProgress := false, callTimeout := false }, [])
      else (s, [])
  | .cancelCooldownFire =>
      if s.cancelTimer then
        ({ s with callInProgress := false, cancelTimer := false }, [])
      else (s, [])

/-- Run a sequence of events, states only. -/
def runS (evs : List Ev) (s : CState) : CState :=
  evs.foldl (fun st e => (stepE e st).1) s

/-- Run a sequence of events, accumulating outputs. -/
def runO (evs : List Ev) (s : CState) : CState × List Out :=
  evs.foldl (fun (p : CState × List Out) e =>
    let r := stepE e p.1
    (r.1, p.2 ++ r.2)) (s, [])

/-- State invariant maintained by the component: the 15 s cooldown timer
exists only while `callInProgress`, and the 3 s post-cancel timer exists only
while `callInProgress` with the cooldown timer cleared. -/
def Inv (s : CState) : Prop :=
  (s.callTimeout = true → s.callInProgress = true) ∧
  (s.cancelTimer = true → s.callInProgress = true ∧ s.callTimeout = false)

theorem inv_initState : Inv initState := by
  constructor <;> simp [initState]

theorem inv_stepE (e : Ev) (s : CState) (h : Inv s) : Inv (stepE e s).1 := by
  obtain ⟨h1, h2⟩ := h
  cases e with
  | shake c =>
      simp only [stepE, handleShakeDetected]
      split
      · exact ⟨h1, h2⟩
      · cases c with
        | none => exact ⟨h1, h2⟩
        | some ct => exact ⟨h1, h2⟩
  | manual c =>
      simp only [stepE]
      split
      · exact ⟨h1, h2⟩
      · simp only [handleShakeDetected]
        split
        · exact ⟨h1, h2⟩
        · cases c with
          | none => exact ⟨h1, h2⟩
          | some ct => exact ⟨h1, h2⟩
  | tick =>
      simp only [stepE]
      split
      · exact ⟨h1, h2⟩
      · exact ⟨h1, h2⟩
  | zeroEffect c =>
      simp only [stepE]
      split
      · next hg =>
          simp only [makeEmergencyCall]
          split
          · exact ⟨h1, h2⟩
          · cases c with
            | none => exact ⟨h1, h2⟩
            | some ct =>
                refine ⟨fun _ => rfl, fun hc => absurd (h2 hc).1 ?_⟩
                simp [hg.2.2]
      · exact ⟨h1, h2⟩
  | cancel =>
      simp [stepE, cancelEmergencyCall, Inv]
  | callCooldownFire =>
      simp only [stepE]
      split
      · next hc =>
          refine ⟨by simp, fun hq => ?_⟩
          exact absurd (h2 hq).2 (by simp [hc])
      · exact ⟨h1, h2⟩
  | cancelCooldownFire =>
      simp only [stepE]
      split
      · next hc =>
          refine ⟨fun ht => ?_, by simp⟩
          simp only at ht
          exact absurd (h2 hc).2 (by simp [ht])
      · exact ⟨h1, h2⟩

theorem inv_runS (evs : List Ev) : Inv (runS evs initState) := by
  suffices h : ∀ s, Inv s → Inv (runS evs s) from h initState inv_initState
  induction evs with
  | nil => intro s hs; exact hs
  | cons e rest ih =>
      intro s hs
      exact ih _ (inv_stepE e s hs)

/-- **C1.** While the component is not idle — a countdown is active
(`isActivated`), a call is in flight (`callInProgress`), or the cooldown timer
is pending (`callTimeout`) — every shake event and every manual trigger is a
no-op: the state (countdown included, timer flags included) is unchanged and
nothing is emitted.  From an idle state, a shake with a resolvable primary
contact activates the countdown at 5 (the duration the source hard-codes,
the spec's default). -/
theorem shake_rejected_unless_idle (evs : List Ev) (c : Option EmergencyContact) :
    ((runS evs initState).isActivated = true ∨ (runS evs initState).callInProgress = true ∨
        (runS evs initState).callTimeout = true →
      stepE (.shake c) (runS evs initState) = (runS evs initState, []) ∧
      stepE (.manual c) (runS evs initState) = (runS evs initState, [])) ∧
    ((runS evs initState).isActivated = false → (runS evs initState).callInProgress = false →
      (runS evs initState).callTimeout = false →
      ∀ ct, c = some ct →
        (stepE (.shake c) (runS evs initState)).1.isActivated = true ∧
        (stepE (.shake c) (runS evs initState)).1.countdown = 5) := by
  set s := runS evs initState with hs
  have hInv := inv_runS evs
  rw [← hs] at hInv
  constructor
  · intro hni
    have hguard : (s.isActivated || s.callInProgress) = true := by
      rcases hni with h | h | h
      · simp [h]
      · simp [h]
      · simp [hInv.1 h]
    have hmg : (s.isActivated || s.callInProgress || s.callTimeout) = true := by
      rcases hni with h | h | h <;> simp [h]
    constructor
    · simp [stepE, handleShakeDetected, hguard]
    · simp [stepE, hmg]
  · intro ha hc _ ct hct
    subst hct
    simp [stepE, handleShakeDetected, ha, hc]

/-- Closed witness for `shake_rejected_unless_idle`: after a shake from a
contactless idle state is refused the machine is still idle and accepts a
shake carrying a contact; after an accepted shake a second shake is dropped. -/
theorem shake_rejected_unless_idle_witness :
    (let s := runS [.shake (some ⟨"1", "Alex", "+1 (555) 123-4567", true⟩)] initState
     s.isActivated = true ∧
     stepE (.shake (some ⟨"1", "Alex", "+1 (555) 123-4567", true⟩)) s = (s, []) ∧
     stepE (.manual (some ⟨"1", "Alex", "+1 (555) 123-4567", true⟩)) s = (s, [])) ∧
    (let t := runS [] initState
     (stepE (.shake (some ⟨"1", "Alex", "+1 (555) 123-4567", true⟩)) t).1.isActivated = true ∧
     (stepE (.shake (some ⟨"1", "Alex", "+1 (555) 123-4567", true⟩)) t).1.countdown = 5) := by
  refine ⟨⟨by decide, ?_⟩, ?_⟩
  · exact (shake_rejected_unless_idle [.shake (some ⟨"1", "Alex", "+1 (555) 123-4567", true⟩)]
      (some ⟨"1", "Alex", "+1 (555) 123-4567", true⟩)).1 (Or.inl (by decide))
  · exact (shake_rejected_unless_idle []
      (some ⟨"1", "Alex", "+1 (555) 123-4567", true⟩)).2 (by decide) (by decide) (by decide)
      ⟨"1", "Alex", "+1 (555) 123-4567", true⟩ rfl

/-- The state `cancelEmergencyCall` produces, regardless of the state it was
called in: deactivated, countdown zeroed, 3 s `callInProgress` window open. -/
def cancelState : CState :=
  { isActivated := false, countdown := 0, callInProgress := true,
    callTimeout := false, cancelTimer := true }

theorem stepE_cancelState (e : Ev) (he : e ≠ .cancelCooldownFire) :
    (stepE e cancelState).1 = cancelState ∧
    ∀ n, Out.placeCall n ∉ (stepE e cancelState).2 := by
  cases e with
  | shake c => simp [stepE, handleShakeDetected, cancelState]
  | manual c => simp [stepE, cancelState]
  | tick => simp [stepE, cancelState]
  | zeroEffect c => simp [stepE, cancelState]
  | cancel => simp [stepE, cancelEmergencyCall, cancelState]
  | callCooldownFire => simp [stepE, cancelState]
  | cancelCooldownFire => exact absurd rfl he

theorem runO_cancelState (evs : List Ev) (h : Ev.cancelCooldownFire ∉ evs) :
    (runO evs cancelState).1 = cancelState ∧
    ∀ n, Out.placeCall n ∉ (runO evs cancelState).2 := by
  have key : ∀ (l : List Ev), Ev.cancelCooldownFire ∉ l → ∀ (acc : List Out),
      (l.foldl (fun (p : CState × List Out) e =>
        let r := stepE e p.1; (r.1, p.2 ++ r.2)) (cancelState, acc)).1 = cancelState ∧
      ∀ n, Out.placeCall n ∈ (l.foldl (fun (p : CState × List Out) e =>
        let r := stepE e p.1; (r.1, p.2 ++ r.2)) (cancelState, acc)).2 →
        Out.placeCall n ∈ acc := by
    intro l
    induction l with
    | nil => intro _ acc; exact ⟨rfl, fun n hn => hn⟩
    | cons e rest ih =>
        intro hmem acc
        have he : e ≠ .cancelCooldownFire := fun hq => hmem (hq ▸ List.mem_cons_self e rest)
        have hrest : Ev.cancelCooldownFire ∉ rest := fun hq => hmem (List.mem_cons_of_mem e hq)
        obtain ⟨hst, hout⟩ := stepE_cancelState e he
        simp only [List.foldl_cons]
        have hpair : (let r := stepE e cancelState; (r.1, acc ++ r.2)) =
            (cancelState, acc ++ (stepE e cancelState).2) := by
          show ((stepE e cancelState).1, acc ++ (stepE e cancelState).2) = _
          rw [hst]
        rw [hpair]
        obtain ⟨ih1, ih2⟩ := ih hrest (acc ++ (stepE e cancelState).2)
        refine ⟨ih1, fun n hn => ?_⟩
        rcases List.mem_append.mp (ih2 n hn) with h | h
        · exact h
        · exact absurd h (hout n)
  obtain ⟨h1, h2⟩ := key evs h []
  exact ⟨h1, fun n hn => by simpa using h2 n hn⟩

/-- **C2.** Cancelling during `CountingDown` never dispatches a call: the
cancel step emits no `placeCall`; it opens the 3 s cooldown window
(`callInProgress`) during which shake and manual triggers are dropped; as long
as the 3 s timer has not fired, no event whatsoever can produce a `placeCall`
and the state stays put; when the timer fires the machine is exactly idle
again. -/
theorem cancel_skips_dispatch_and_cools_down (evs : List Ev)
    (hact : (runS evs initState).isActivated = true)
    (hcd : 0 < (runS evs initState).countdown)
    (hcip : (runS evs initState).callInProgress = false) :
    (∀ n, Out.placeCall n ∉ (stepE .cancel (runS evs initState)).2) ∧
    (stepE .cancel (runS evs initState)).1 = cancelState ∧
    cancelState.callInProgress = true ∧
    (∀ c, stepE (.shake c) cancelState = (cancelState, []) ∧
          stepE (.manual c) cancelState = (cancelState, [])) ∧
    (∀ evs', Ev.cancelCooldownFire ∉ evs' →
       (runO evs' cancelState).1 = cancelState ∧
       ∀ n, Out.placeCall n ∉ (runO evs' cancelState).2) ∧
    stepE .cancelCooldownFire cancelState = (initState, []) := by
  refine ⟨by simp [stepE, cancelEmergencyCall], by simp [stepE, cancelEmergencyCall, cancelState],
    rfl, fun c => ?_, fun evs' h' => runO_cancelState evs' h', ?_⟩
  · exact ⟨by simp [stepE, handleShakeDetected, cancelState], by simp [stepE, cancelState]⟩
  · simp [stepE, cancelState, initState]

/-- Closed witness for `cancel_skips_dispatch_and_cools_down`: cancel in the
middle of a live countdown (two ticks in), then check the cooldown window on a
concrete event sequence. -/
theorem cancel_skips_dispatch_witness :
    ((runS [.shake (some ⟨"1", "Alex", "+1 (555) 123-4567", true⟩), .tick, .tick]
        initState).isActivated = true ∧
     0 < (runS [.shake (some ⟨"1", "Alex", "+1 (555) 123-4567", true⟩), .tick, .tick]
        initState).countdown ∧
     (runS [.shake (some ⟨"1", "Alex", "+1 (555) 123-4567", true⟩), .tick, .tick]
        initState).callInProgress = false) ∧
    ((runO [.shake (some ⟨"1", "Alex", "+1 (555) 123-4567", true⟩), .tick, .cancel]
        cancelState).1 = cancelState ∧
     ∀ n, Out.placeCall n ∉
       (runO [.shake (some ⟨"1", "Alex", "+1 (555) 123-4567", true⟩), .tick, .cancel]
         cancelState).2) := by
  refine ⟨⟨by decide, by decide, by decide⟩, ?_⟩
  exact ((cancel_skips_dispatch_and_cools_down
      [.shake (some ⟨"1", "Alex", "+1 (555) 123-4567", true⟩), .tick, .tick]
      (by decide) (by decide) (by decide)).2.2.2.2.1
    [.shake (some ⟨"1", "Alex", "+1 (555) 123-4567", true⟩), .tick, .cancel] (by decide))

/-- **C3.** When the countdown has reached zero and the primary contact can no
longer be resolved (`getPrimaryContact()` returns `null`), the dispatch step
emits exactly the `NoContactError` notification — no `placeCall` — and the
machine lands exactly in the initial idle state: countdown inactive, no call
in flight, and neither cooldown timer started. -/
theorem no_contact_at_dispatch_goes_idle (evs : List Ev)
    (hact : (runS evs initState).isActivated = true)
    (hcd : (runS evs initState).countdown = 0)
    (hcip : (runS evs initState).callInProgress = false) :
    stepE (.zeroEffect none) (runS evs initState) = (initState, [Out.noContactError]) := by
  have hInv := inv_runS evs
  have hct : (runS evs initState).callTimeout = false := by
    cases hq : (runS evs initState).callTimeout with
    | false => rfl
    | true => exact absurd (hInv.1 hq) (by simp [hcip])
  have hcan : (runS evs initState).cancelTimer = false := by
    cases hq : (runS evs initState).cancelTimer with
    | false => rfl
    | true => exact absurd (hInv.2 hq).1 (by simp [hcip])
  have heq : runS evs initState =
      { isActivated := true, countdown := 0, callInProgress := false,
        callTimeout := false, cancelTimer := false } := by
    cases hq : runS evs initState with
    | mk a b c d e =>
        rw [hq] at hact hcd hcip hct hcan
        simp_all
  rw [heq]
  simp [stepE, makeEmergencyCall, initState]

/-- Closed witness for `no_contact_at_dispatch_goes_idle`: a full countdown
run whose contact disappears before dispatch. -/
theorem no_contact_at_dispatch_witness :
    ((runS [.shake (some ⟨"1", "Alex", "+1 (555) 123-4567", true⟩),
        .tick, .tick, .tick, .tick, .tick] initState).isActivated = true ∧
     (runS [.shake (some ⟨"1", "Alex", "+1 (555) 123-4567", true⟩),
        .tick, .tick, .tick, .tick, .tick] initState).countdown = 0 ∧
     (runS [.shake (some ⟨"1", "Alex", "+1 (555) 123-4567", true⟩),
        .tick, .tick, .tick, .tick, .tick] initState).callInProgress = false) ∧
    stepE (.zeroEffect none)
        (runS [.shake (some ⟨"1", "Alex", "+1 (555) 123-4567", true⟩),
          .tick, .tick, .tick, .tick, .tick] initState) =
      (initState, [Out.noContactError]) := by
  refine ⟨⟨by decide, by decide, by decide⟩, ?_⟩
  exact no_contact_at_dispatch_goes_idle
    [.shake (some ⟨"1", "Alex", "+1 (555) 123-4567", true⟩), .tick, .tick, .tick, .tick, .tick]
    (by decide) (by decide) (by decide)

/-- The contact of the spec's end-to-end scenario. -/
def alex : EmergencyContact :=
  { id := "1", name := "Alex", phoneNumber := "+1 (555) 123-4567", isPrimary := true }

/-- The end-to-end event sequence: shake, five countdown ticks, the
countdown-zero dispatch, and the 15 s cooldown expiry. -/
def alexRun : List Ev :=
  [.shake (some alex), .tick, .tick, .tick, .tick, .tick,
   .zeroEffect (some alex), .callCooldownFire]

/-- Number of `placeCall` outputs in a trace. -/
def countPlaceCalls (outs : List Out) : Nat :=
  outs.countP (fun o => match o with | .placeCall _ => true | _ => false)

/-- **C5.** End-to-end scenario with primary contact
`{name: "Alex", phoneNumber: "+1 (555) 123-4567"}`: the shake is accepted from
idle with countdown 5; each tick decrements through 4, 3, 2, 1, 0; the
countdown-zero step emits `placeCall` with the normalized number
`"+15551234567"`, and the whole trace contains exactly one `placeCall`; the
machine is then in cooldown (`callInProgress` with the cooldown timer
pending), the cooldown expiry restores exactly the initial idle state, and a
fresh shake is then accepted with countdown 5 again. -/
theorem end_to_end_alex_scenario :
    (runS (alexRun.take 1) initState).countdown = 5 ∧
    (runS (alexRun.take 1) initState).isActivated = true ∧
    (runS (alexRun.take 2) initState).countdown = 4 ∧
    (runS (alexRun.take 3) initState).countdown = 3 ∧
    (runS (alexRun.take 4) initState).countdown = 2 ∧
    (runS (alexRun.take 5) initState).countdown = 1 ∧
    (runS (alexRun.take 6) initState).countdown = 0 ∧
    (runO alexRun initState).2 =
      [.activated "Alex", .countdownTick 4, .countdownTick 3, .countdownTick 2,
       .countdownTick 1, .countdownTick 0, .callInitiated "Alex",
       .placeCall "+15551234567"] ∧
    countPlaceCalls (runO alexRun initState).2 = 1 ∧
    (runS (alexRun.take 7) initState).callInProgress = true ∧
    (runS (alexRun.take 7) initState).callTimeout = true ∧
    (runO alexRun initState).1 = initState ∧
    (stepE (.shake (some alex)) (runO alexRun initState).1).1.isActivated = true ∧
    (stepE (.shake (some alex)) (runO alexRun initState).1).1.countdown = 5 := by
  decide

/-- **C10.** `getPrimaryContact` returns a stored contact flagged primary when
one exists; when no contact is flagged but the list is non-empty it returns
the first stored contact; and it returns `null` exactly when the list is
empty — so the `NoContactError` path can only arise from an empty contact
list. -/
theorem getPrimaryContact_resolution (cs : List EmergencyContact) :
    ((∃ c ∈ cs, c.isPrimary = true) →
      ∃ c, getPrimaryContact cs = some c ∧ c ∈ cs ∧ c.isPrimary = true) ∧
    ((∀ c ∈ cs, c.isPrimary = false) → getPrimaryContact cs = cs.head?) ∧
    (getPrimaryContact cs = none ↔ cs = []) := by
  refine ⟨?_, ?_, ?_⟩
  · rintro ⟨c, hc, hp⟩
    have hsome : (cs.find? (fun c => c.isPrimary)).isSome := by
      rw [List.find?_isSome]
      exact ⟨c, hc, by simp [hp]⟩
    obtain ⟨d, hd⟩ := Option.isSome_iff_exists.mp hsome
    refine ⟨d, ?_, List.mem_of_find?_eq_some hd, by simpa using List.find?_some hd⟩
    simp [getPrimaryContact, hd]
  · intro hnone
    have hfind : cs.find? (fun c => c.isPrimary) = none := by
      rw [List.find?_eq_none]
      intro c hc
      simp [hnone c hc]
    cases cs with
    | nil => simp [getPrimaryContact, hfind]
    | cons c rest => simp [getPrimaryContact, hfind]
  · constructor
    · intro h
      cases cs with
      | nil => rfl
      | cons c rest =>
          exfalso
          simp only [getPrimaryContact] at h
          cases hq : (c :: rest).find? (fun c => c.isPrimary) with
          | none => rw [hq] at h; simp at h
          | some d => rw [hq] at h; simp at h
    · rintro rfl
      rfl

/-- Closed witness for `getPrimaryContact_resolution`: a list whose second
entry is the flagged one, a list with no flag, and the empty list. -/
theorem getPrimaryContact_resolution_witness :
    (∃ c, getPrimaryContact
        [⟨"1", "Bea", "+1", false⟩, ⟨"2", "Alex", "+2", true⟩] = some c ∧
      c ∈ [(⟨"1", "Bea", "+1", false⟩ : EmergencyContact), ⟨"2", "Alex", "+2", true⟩] ∧
      c.isPrimary = true) ∧
    getPrimaryContact [⟨"1", "Bea", "+1", false⟩, ⟨"2", "Cal", "+3", false⟩] =
      ([⟨"1", "Bea", "+1", false⟩, ⟨"2", "Cal", "+3", false⟩] :
        List EmergencyContact).head? ∧
    (getPrimaryContact [] = none ↔ ([] : List EmergencyContact) = []) := by
  refine ⟨?_, ?_, ?_⟩
  · exact (getPrimaryContact_resolution
      [⟨"1", "Bea", "+1", false⟩, ⟨"2", "Alex", "+2", true⟩]).1
      ⟨⟨"2", "Alex", "+2", true⟩, by decide, rfl⟩
  · exact (getPrimaryContact_resolution
      [⟨"1", "Bea", "+1", false⟩, ⟨"2", "Cal", "+3", false⟩]).2.1 (by decide)
  · exact (getPrimaryContact_resolution []).2.2

/-! ## Motion classifier (`src/src/utils/shakeDetection.ts`)

Sensor values and thresholds are modelled as integers (`ℤ`), timestamps from
`Date.now()` as naturals.  The source compares
`speed = sqrt(dx² + dy² + dz²) / deltaTime * 10000` against the threshold;
since all quantities are nonnegative and `deltaTime > 0`, `speed > T` is
equivalent to `T < 0 ∨ (dx² + dy² + dz²)·10⁸ > T²·deltaTime²`, which is the
exact square-free form used below.  A pending `shakeTimeout` is modelled by
`refractoryUntil`: the timer is pending at time `t` iff `t < refractoryUntil`
(its callback nulls the handle when it fires at `refractoryUntil`). -/

/-- `speed > T` for `speed = sqrt m / dt * 10000`, in exact cross-multiplied
form (`m` is the sum of squared axis deltas). -/
def speedExceeds (m : ℤ) (dt : Nat) (T : ℤ) : Bool :=
  if T < 0 then true else decide (m * 100000000 > T ^ 2 * (dt : ℤ) ^ 2)

/-- The `ShakeDetector` instance state (class fields of `shakeDetection.ts`). -/
structure ShakeDetector where
  lastTime : Nat
  lastX : ℤ
  lastY : ℤ
  lastZ : ℤ
  refractoryUntil : Nat
  threshold : ℤ
  timeout : Nat
  isListening : Bool
deriving DecidableEq, Repr

/-- The constructor (lines 23–29): `threshold = options.threshold || 15`,
`timeout = options.timeout || 1000` — JS `||` falls back on `0` (falsy) and
on an absent option; construction never fails. -/
def mkShakeDetector (thresholdOpt : Option ℤ) (timeoutOpt : Option Nat) : ShakeDetector :=
  { lastTime := 0, lastX := 0, lastY := 0, lastZ := 0, refractoryUntil := 0,
    threshold := match thresholdOpt with
      | none => 15
      | some t => if t = 0 then 15 else t,
    timeout := match timeoutOpt with
      | none => 1000
      | some t => if t = 0 then 1000 else t,
    isListening := false }

/-- `handleMotion` (lines 56–94).  `acc` is `event.accelerationIncludingGravity`
(`none` when the platform supplies no vector).  Returns the updated state and
whether `onShake` was invoked. -/
def handleMotion (s : ShakeDetector) (current : Nat) (acc : Option (ℤ × ℤ × ℤ)) :
    ShakeDetector × Bool :=
  match acc with
  | none => (s, false)
  | some (x, y, z) =>
    if current - s.lastTime > 100 then
      let deltaTime := current - s.lastTime
      let deltaX := |s.lastX - x|
      let deltaY := |s.lastY - y|
      let deltaZ := |s.lastZ - z|
      let s1 := { s with lastTime := current, lastX := x, lastY := y, lastZ := z }
      if speedExceeds (deltaX ^ 2 + deltaY ^ 2 + deltaZ ^ 2) deltaTime s.threshold then
        if current < s.refractoryUntil then (s1, false)
        else ({ s1 with refractoryUntil := current + s.timeout }, true)
      else (s1, false)
    else (s, false)

/-- Feed a stream of `(timestamp, acceleration)` samples through
`handleMotion`, collecting the timestamps at which `onShake` fired. -/
def processMotion : List (Nat × Option (ℤ × ℤ × ℤ)) → ShakeDetector →
    ShakeDetector × List Nat
  | [], s => (s, [])
  | sm :: rest, s =>
      let r := handleMotion s sm.1 sm.2
      let t := processMotion rest r.1
      (t.1, (if r.2 then [sm.1] else []) ++ t.2)

/-- `stop` (lines 43–54): no-op when not listening; otherwise detaches the
listener and clears the pending `shakeTimeout`.  The last-sample fields are
not touched. -/
def ShakeDetector.stopped (s : ShakeDetector) : ShakeDetector :=
  if s.isListening = false then s
  else { s with isListening := false, refractoryUntil := 0 }

theorem handleMotion_refractory_blocked (s : ShakeDetector) (current : Nat)
    (acc : Option (ℤ × ℤ × ℤ)) (h : current < s.refractoryUntil) :
    (handleMotion s current acc).2 = false ∧
    (handleMotion s current acc).1.refractoryUntil = s.refractoryUntil := by
  cases acc with
  | none => exact ⟨rfl, rfl⟩
  | some v =>
      obtain ⟨x, y, z⟩ := v
      simp only [handleMotion]
      repeat' split
      all_goals exact ⟨rfl, rfl⟩

theorem processMotion_no_emit_in_refractory (samples : List (Nat × Option (ℤ × ℤ × ℤ)))
    (s : ShakeDetector) (h : ∀ p ∈ samples, p.1 < s.refractoryUntil) :
    (processMotion samples s).2 = [] := by
  induction samples generalizing s with
  | nil => rfl
  | cons sm rest ih =>
      have hsm : sm.1 < s.refractoryUntil := h sm (List.mem_cons_self sm rest)
      obtain ⟨hfalse, hpres⟩ := handleMotion_refractory_blocked s sm.1 sm.2 hsm
      simp only [processMotion, hfalse]
      rw [ih (handleMotion s sm.1 sm.2).1
        (fun p hp => hpres ▸ h p (List.mem_cons_of_mem sm hp))]
      simp

theorem handleMotion_emit_sets_refractory (s : ShakeDetector) (current : Nat)
    (acc : Option (ℤ × ℤ × ℤ)) (s' : ShakeDetector)
    (h : handleMotion s current acc = (s', true)) :
    s'.refractoryUntil = current + s.timeout := by
  cases acc with
  | none => simp [handleMotion] at h
  | some v =>
      obtain ⟨x, y, z⟩ := v
      simp only [handleMotion] at h
      split at h
      · split at h
        · split at h
          · exact absurd (congrArg Prod.snd h) (by simp)
          · injection h with h1 h2
            rw [← h1]
        · exact absurd (congrArg Prod.snd h) (by simp)
      · exact absurd (congrArg Prod.snd h) (by simp)

/-- **C4.** Once `handleMotion` has invoked `onShake` at time `current`, the
`shakeTimeout` refractory handle stays pending until `current + timeout`
(`timeout` is the configured refractory duration): whatever further motion
samples arrive — qualifying or not — none strictly before
`current + timeout` produces a second event. -/
theorem no_second_event_within_refractory (s : ShakeDetector) (current : Nat)
    (acc : Option (ℤ × ℤ × ℤ)) (s' : ShakeDetector)
    (hemit : handleMotion s current acc = (s', true))
    (samples : List (Nat × Option (ℤ × ℤ × ℤ)))
    (hall : ∀ p ∈ samples, p.1 < current + s.timeout) :
    (processMotion samples s').2 = [] := by
  have hr := handleMotion_emit_sets_refractory s current acc s' hemit
  exact processMotion_no_emit_in_refractory samples s' (fun p hp => hr ▸ hall p hp)

/-- Closed witness for `no_second_event_within_refractory`: an emission at
`t = 200` (default config), then two qualifying samples at 350 and 500 —
both inside the 1000 ms refractory window — produce no event. -/
theorem no_second_event_witness :
    handleMotion (mkShakeDetector none none) 200 (some (30, 0, 0)) =
      ({ lastTime := 200, lastX := 30, lastY := 0, lastZ := 0,
         refractoryUntil := 1200, threshold := 15, timeout := 1000,
         isListening := false }, true) ∧
    (∀ p ∈ [((350 : Nat), some ((0 : ℤ), (0 : ℤ), (0 : ℤ))), (500, some (40, 0, 0))],
      p.1 < 200 + (mkShakeDetector none none).timeout) ∧
    (processMotion [(350, some (0, 0, 0)), (500, some (40, 0, 0))]
      { lastTime := 200, lastX := 30, lastY := 0, lastZ := 0,
        refractoryUntil := 1200, threshold := 15, timeout := 1000,
        isListening := false }).2 = [] := by
  refine ⟨by decide, by decide, ?_⟩
  exact no_second_event_within_refractory (mkShakeDetector none none) 200 (some (30, 0, 0))
    _ (by decide) _ (by decide)

/-- **C6, counterexample.** Constructing the detector with threshold `0`
does not fail: it produces a usable instance with the default threshold 15
(JS `options.threshold || 15` treats `0` as falsy).  There is no validation
path in the constructor at all. -/
theorem construct_zero_threshold_succeeds :
    mkShakeDetector (some 0) none =
      { lastTime := 0, lastX := 0, lastY := 0, lastZ := 0, refractoryUntil := 0,
        threshold := 15, timeout := 1000, isListening := false } := by
  decide

/-- **C6, amended.** The constructor never rejects a configuration: with a
zero threshold it silently substitutes the default 15 (the `||` fallback),
and a negative threshold is accepted unchanged; in every case a fresh
instance (not listening, zeroed sample state) is produced. -/
theorem construct_nonpositive_threshold (t : ℤ) (h : t ≤ 0) :
    mkShakeDetector (some t) none =
      { lastTime := 0, lastX := 0, lastY := 0, lastZ := 0, refractoryUntil := 0,
        threshold := if t = 0 then 15 else t, timeout := 1000,
        isListening := false } := by
  simp [mkShakeDetector]

/-- Closed witness for `construct_nonpositive_threshold` at threshold `-3`:
the instance is produced with threshold `-3`. -/
theorem construct_nonpositive_threshold_witness :
    (-3 : ℤ) ≤ 0 ∧
    mkShakeDetector (some (-3)) none =
      { lastTime := 0, lastX := 0, lastY := 0, lastZ := 0, refractoryUntil := 0,
        threshold := if (-3 : ℤ) = 0 then 15 else -3, timeout := 1000,
        isListening := false } :=
  ⟨by decide, construct_nonpositive_threshold (-3) (by decide)⟩

/-- **C7, counterexample.** A sample whose per-axis deltas have magnitude
strictly below the threshold (delta vector `(10,0,0)`, magnitude 10 < 15,
stated square-free as `10² < 15²`) still triggers the shake callback, because
the code compares the *rate* `sqrt(Δ)·10⁴/deltaTime` — here `10/200·10⁴ = 500`
— against the threshold, not the delta magnitude itself. -/
theorem small_delta_still_emits :
    (|(mkShakeDetector none none).lastX - 10| ^ 2 +
     |(mkShakeDetector none none).lastY - 0| ^ 2 +
     |(mkShakeDetector none none).lastZ - 0| ^ 2 <
       (mkShakeDetector none none).threshold ^ 2) ∧
    (handleMotion (mkShakeDetector none none) 200 (some (10, 0, 0))).2 = true := by
  decide

/-- Per-step check that every accepted sample's composite speed metric
`sqrt(dx²+dy²+dz²)/deltaTime·10⁴` stays at or below the threshold. -/
def allSpeedBelow : List (Nat × Option (ℤ × ℤ × ℤ)) → ShakeDetector → Bool
  | [], _ => true
  | (t, acc) :: rest, s =>
      (match acc with
       | none => true
       | some (x, y, z) =>
         if t - s.lastTime > 100 then
           !speedExceeds (|s.lastX - x| ^ 2 + |s.lastY - y| ^ 2 + |s.lastZ - z| ^ 2)
             (t - s.lastTime) s.threshold
         else true) &&
      allSpeedBelow rest (handleMotion s t acc).1

/-- **C7, amended.** For every sequence of motion samples whose accepted
samples all have composite speed (delta magnitude per elapsed time, scaled by
10⁴ — the quantity the code actually compares against the threshold) not
exceeding the threshold, the classifier never invokes the shake callback. -/
theorem no_emit_when_speed_below (samples : List (Nat × Option (ℤ × ℤ × ℤ)))
    (s : ShakeDetector) (h : allSpeedBelow samples s = true) :
    (processMotion samples s).2 = [] := by
  induction samples generalizing s with
  | nil => rfl
  | cons sm rest ih =>
      obtain ⟨t, acc⟩ := sm
      rw [allSpeedBelow.eq_def, Bool.and_eq_true] at h
      obtain ⟨hstep, hrest⟩ := h
      have hnoemit : (handleMotion s t acc).2 = false := by
        cases acc with
        | none => rfl
        | some v =>
            obtain ⟨x, y, z⟩ := v
            simp only at hstep
            simp only [handleMotion]
            split
            · next hg =>
                rw [if_pos hg, Bool.not_eq_eq_eq_not, Bool.not_true] at hstep
                rw [if_neg (by rw [hstep]; decide)]
            · rfl
      simp only [processMotion, hnoemit]
      rw [ih (handleMotion s t acc).1 hrest]
      simp

/-- Closed witness for `no_emit_when_speed_below`: two gentle samples 20 s
apart (deltas of magnitude 5, speed `5/20000·10⁴ = 2.5 ≤ 15`) produce no
event. -/
theorem no_emit_when_speed_below_witness :
    allSpeedBelow [(20000, some (5, 0, 0)), (40000, some (0, 5, 0))]
      (mkShakeDetector none none) = true ∧
    (processMotion [(20000, some (5, 0, 0)), (40000, some (0, 5, 0))]
      (mkShakeDetector none none)).2 = [] :=
  ⟨by decide, no_emit_when_speed_below _ (mkShakeDetector none none) (by decide)⟩

/-- **C9, counterexample.** `stop()` on a listening detector does *not* reset
the whole classifier state: the last accepted sample's coordinates and
timestamp survive (`lastX = 7`, `lastTime = 900` below); only the listening
flag and the pending `shakeTimeout` are cleared. -/
theorem stopped_keeps_last_sample :
    ShakeDetector.stopped
        { lastTime := 900, lastX := 7, lastY := 0, lastZ := 0,
          refractoryUntil := 1500, threshold := 15, timeout := 1000,
          isListening := true } =
      { lastTime := 900, lastX := 7, lastY := 0, lastZ := 0,
        refractoryUntil := 0, threshold := 15, timeout := 1000,
        isListening := false } ∧
    (900 : Nat) ≠ 0 ∧ (7 : ℤ) ≠ 0 := by
  decide

/-- **C9, amended.** `stop()` is idempotent — when the detector is not
listening it changes nothing — and on a listening detector it clears exactly
the listening flag and the pending refractory timeout, leaving the last
accepted sample's coordinates and timestamp unchanged (the detector keeps no
consecutive-shake counter). -/
theorem stopped_idempotent_clears_timer (s : ShakeDetector) :
    (s.isListening = false → ShakeDetector.stopped s = s) ∧
    (s.isListening = true → ShakeDetector.stopped s =
      { s with isListening := false, refractoryUntil := 0 }) ∧
    ShakeDetector.stopped (ShakeDetector.stopped s) = ShakeDetector.stopped s := by
  refine ⟨fun h => by simp [ShakeDetector.stopped, h], fun h => by simp [ShakeDetector.stopped, h], ?_⟩
  cases h : s.isListening with
  | false => simp [ShakeDetector.stopped, h]
  | true => simp [ShakeDetector.stopped, h]

/-- Closed witness for `stopped_idempotent_clears_timer` on a non-listening
detector with residual sample state: stop is a no-op. -/
theorem stopped_idempotent_witness :
    ({ lastTime := 900, lastX := 7, lastY := 0, lastZ := 0,
       refractoryUntil := 1500, threshold := 15, timeout := 1000,
       isListening := false } : ShakeDetector).isListening = false ∧
    ShakeDetector.stopped
        { lastTime := 900, lastX := 7, lastY := 0, lastZ := 0,
          refractoryUntil := 1500, threshold := 15, timeout := 1000,
          isListening := false } =
      { lastTime := 900, lastX := 7, lastY := 0, lastZ := 0,
        refractoryUntil := 1500, threshold := 15, timeout := 1000,
        isListening := false } :=
  ⟨rfl, (stopped_idempotent_clears_timer _).1 rfl⟩

/-! ## Elaborated motion classifier (`src/unnamed/part_005`)

This `ShakeDetector` variant adds a single-axis test
(`maxAxisChange > threshold / 1.5`, cross-multiplied to `3·max > 2·T`), a
consecutive-shake counter with `requiredShakes = 2`, the strong-shake escape
hatch `speed > threshold * 1.5` (cross-multiplied to `4·m·10⁸ > 9·T²·dt²`),
a 2500 ms counter-reset timer scheduled on every pulse (tracked in
`pendingResets`), and an 80 ms minimum sample interval. -/

/-- `speed > T * 1.5` in exact cross-multiplied form. -/
def speedExceeds15 (m : ℤ) (dt : Nat) (T : ℤ) : Bool :=
  if T < 0 then true else decide (4 * m * 100000000 > 9 * T ^ 2 * (dt : ℤ) ^ 2)

/-- Instance state of the `part_005` detector class. -/
structure ShakeDetectorP5 where
  lastTime : Nat
  lastX : ℤ
  lastY : ℤ
  lastZ : ℤ
  refractoryUntil : Nat
  threshold : ℤ
  timeout : Nat
  isListening : Bool
  consecutiveShakes : Nat
  requiredShakes : Nat
  pendingResets : List Nat
deriving DecidableEq, Repr

/-- The `part_005` constructor: `threshold = options.threshold || 8`,
`timeout = options.timeout || 1000`, `requiredShakes = 2`. -/
def mkShakeDetectorP5 (thresholdOpt : Option ℤ) (timeoutOpt : Option Nat) : ShakeDetectorP5 :=
  { lastTime := 0, lastX := 0, lastY := 0, lastZ := 0, refractoryUntil := 0,
    threshold := match thresholdOpt with
      | none => 8
      | some t => if t = 0 then 8 else t,
    timeout := match timeoutOpt with
      | none => 1000
      | some t => if t = 0 then 1000 else t,
    isListening := false, consecutiveShakes := 0, requiredShakes := 2,
    pendingResets := [] }

/-- `handleMotion` of `part_005` (lines 127–195).  Inside a pulse the counter
is incremented; emission requires the counter to have reached
`requiredShakes` or the strong-shake escape; an early `return` when the
refractory timer is pending skips both the emission and the scheduling of the
2500 ms counter-reset. -/
def handleMotionP5 (s : ShakeDetectorP5) (current : Nat) (acc : Option (ℤ × ℤ × ℤ)) :
    ShakeDetectorP5 × Bool :=
  match acc with
  | none => (s, false)
  | some (x, y, z) =>
    if current - s.lastTime > 80 then
      let deltaTime := current - s.lastTime
      let deltaX := |s.lastX - x|
      let deltaY := |s.lastY - y|
      let deltaZ := |s.lastZ - z|
      let s1 := { s with lastTime := current, lastX := x, lastY := y, lastZ := z }
      let m := deltaX ^ 2 + deltaY ^ 2 + deltaZ ^ 2
      let maxAxisChange := max deltaX (max deltaY deltaZ)
      if speedExceeds m deltaTime s.threshold ||
          decide (3 * maxAxisChange > 2 * s.threshold) then
        let s2 := { s1 with consecutiveShakes := s.consecutiveShakes + 1 }
        if s2.consecutiveShakes ≥ s.requiredShakes ∨
            speedExceeds15 m deltaTime s.threshold = true then
          if current < s.refractoryUntil then (s2, false)
          else
            ({ s2 with
                consecutiveShakes := 0
                refractoryUntil := current + s.timeout
                pendingResets := s2.pendingResets ++ [current + 2500] },
             true)
        else ({ s2 with pendingResets := s2.pendingResets ++ [current + 2500] }, false)
      else (s1, false)
    else (s, false)

/-- Firing of one scheduled 2500 ms counter-reset: zero the counter. -/
def consecResetFire (s : ShakeDetectorP5) (t : Nat) : ShakeDetectorP5 :=
  if t ∈ s.pendingResets then
    { s with consecutiveShakes := 0, pendingResets := s.pendingResets.erase t }
  else s

/-- Feed a sample stream through the `part_005` detector, collecting emission
timestamps. -/
def processMotionP5 : List (Nat × Option (ℤ × ℤ × ℤ)) → ShakeDetectorP5 →
    ShakeDetectorP5 × List Nat
  | [], s => (s, [])
  | sm :: rest, s =>
      let r := handleMotionP5 s sm.1 sm.2
      let t := processMotionP5 rest r.1
      (t.1, (if r.2 then [sm.1] else []) ++ t.2)

theorem speedExceeds15_le (m : ℤ) (dt : Nat) (T : ℤ) (hm : 0 ≤ m)
    (h : speedExceeds15 m dt T = true) : speedExceeds m dt T = true := by
  unfold speedExceeds15 at h
  unfold speedExceeds
  split
  · rfl
  · next hT =>
      rw [if_neg hT, decide_eq_true_eq] at h
      rw [decide_eq_true_eq]
      have hb : (0 : ℤ) ≤ T ^ 2 * (dt : ℤ) ^ 2 := by positivity
      nlinarith [h, hb]

theorem processMotionP5_drops_fast_samples (samples : List (Nat × Option (ℤ × ℤ × ℤ)))
    (s : ShakeDetectorP5) (h : ∀ p ∈ samples, p.1 ≤ s.lastTime + 80) :
    processMotionP5 samples s = (s, []) := by
  induction samples with
  | nil => rfl
  | cons sm rest ih =>
      have hsm : sm.1 ≤ s.lastTime + 80 := h sm (List.mem_cons_self sm rest)
      have hgate : ¬ sm.1 - s.lastTime > 80 := by omega
      have hstep : handleMotionP5 s sm.1 sm.2 = (s, false) := by
        cases hacc : sm.2 with
        | none => rfl
        | some v =>
            obtain ⟨x, y, z⟩ := v
            simp only [handleMotionP5]
            rw [if_neg hgate]
      simp only [processMotionP5, hstep]
      rw [ih (fun p hp => h p (List.mem_cons_of_mem sm hp))]
      simp

/-- **C8.** In the `part_005` classifier: (i) whenever `handleMotion` emits a
shake event on an accepted sample, either the consecutive-pulse counter has
just reached `requiredShakes` or that pulse's composite speed exceeds
`threshold * 1.5`; (ii) a single isolated strong burst — refractory clear,
accepted sample whose speed exceeds `threshold * 1.5`, followed by further
raw samples all within the 80 ms minimum sample interval — yields exactly one
emission, however many raw samples the burst spans. -/
theorem p5_emission_conditions :
    (∀ (s : ShakeDetectorP5) (current : Nat) (x y z : ℤ) (s' : ShakeDetectorP5),
      handleMotionP5 s current (some (x, y, z)) = (s', true) →
      (s.consecutiveShakes + 1 ≥ s.requiredShakes ∨
       speedExceeds15 (|s.lastX - x| ^ 2 + |s.lastY - y| ^ 2 + |s.lastZ - z| ^ 2)
         (current - s.lastTime) s.threshold = true)) ∧
    (∀ (s : ShakeDetectorP5) (current : Nat) (x y z : ℤ)
       (rest : List (Nat × Option (ℤ × ℤ × ℤ))),
      current - s.lastTime > 80 →
      speedExceeds15 (|s.lastX - x| ^ 2 + |s.lastY - y| ^ 2 + |s.lastZ - z| ^ 2)
        (current - s.lastTime) s.threshold = true →
      s.refractoryUntil ≤ current →
      (∀ p ∈ rest, p.1 ≤ current + 80) →
      (processMotionP5 ((current, some (x, y, z)) :: rest) s).2 = [current]) := by
  constructor
  · intro s current x y z s' h
    simp only [handleMotionP5] at h
    split at h
    · split at h
      · split at h
        · next hcond =>
            simpa using hcond
        · exact absurd (congrArg Prod.snd h) (by simp)
      · exact absurd (congrArg Prod.snd h) (by simp)
    · exact absurd (congrArg Prod.snd h) (by simp)
  · intro s current x y z rest hgate hstrong hclear hrest
    have hm : (0 : ℤ) ≤ |s.lastX - x| ^ 2 + |s.lastY - y| ^ 2 + |s.lastZ - z| ^ 2 := by
      positivity
    have hpulse := speedExceeds15_le _ _ _ hm hstrong
    have hemit : handleMotionP5 s current (some (x, y, z)) =
        ({ lastTime := current, lastX := x, lastY := y, lastZ := z,
           refractoryUntil := current + s.timeout, threshold := s.threshold,
           timeout := s.timeout, isListening := s.isListening,
           consecutiveShakes := 0, requiredShakes := s.requiredShakes,
           pendingResets := s.pendingResets ++ [current + 2500] }, true) := by
      simp only [handleMotionP5]
      rw [if_pos hgate, if_pos (by rw [hpulse]; simp),
        if_pos (Or.inr hstrong), if_neg (by omega)]
    simp only [processMotionP5, hemit]
    rw [processMotionP5_drops_fast_samples rest _ (fun p hp => hrest p hp)]
    simp

/-- Closed witness for `p5_emission_conditions`: with the default config
(threshold 8), a strong sample at `t = 100` (`speed = 20/100·10⁴ = 2000 >
12`) emits; the (i) disjunction holds for it, and with two further burst
samples at 150 and 180 ms (inside the 80 ms window after 100) the whole burst
emits exactly once. -/
theorem p5_emission_conditions_witness :
    ((mkShakeDetectorP5 none none).consecutiveShakes + 1 ≥
        (mkShakeDetectorP5 none none).requiredShakes ∨
      speedExceeds15
        (|(mkShakeDetectorP5 none none).lastX - 20| ^ 2 +
         |(mkShakeDetectorP5 none none).lastY - 0| ^ 2 +
         |(mkShakeDetectorP5 none none).lastZ - 0| ^ 2)
        (100 - (mkShakeDetectorP5 none none).lastTime)
        (mkShakeDetectorP5 none none).threshold = true) ∧
    (processMotionP5
        [(100, some (20, 0, 0)), (150, some (20, 0, 0)), (180, some (0, 0, 0))]
        (mkShakeDetectorP5 none none)).2 = [100] := by
  constructor
  · exact (p5_emission_conditions.1 (mkShakeDetectorP5 none none) 100 20 0 0
      { lastTime := 100, lastX := 20, lastY := 0, lastZ := 0,
        refractoryUntil := 1100, threshold := 8, timeout := 1000,
        isListening := false, consecutiveShakes := 0, requiredShakes := 2,
        pendingResets := [2600] } (by decide))
  · exact (p5_emission_conditions.2 (mkShakeDetectorP5 none none) 100 20 0 0
      [(150, some (20, 0, 0)), (180, some (0, 0, 0))]
      (by decide) (by decide) (by decide) (by decide))

end ShakeAlert
